import Mathlib

/-!
Shallow embedding of the lifeBall summer-camp server core
(`src/index.js` and `src/config/dbConfig.js`): the connection cache
(`DbConnect`), the two auth-gate middleware stages (`verifyJWT`,
`verifyAdmin`), and two route handlers (`POST /add-user`,
`DELETE /delete-cart-item/:id`).  Route bodies not touched by the claims
are out of scope, matching the specification's scope.
-/

/-- An HTTP error-style response body as the server sends it:
status code, the `error` boolean flag, and the human-readable message. -/
structure Resp where
  status : Nat
  error : Bool
  message : String
  deriving Repr, DecidableEq

/-- Outcome of the Stage-1 middleware `verifyJWT`: either it writes a
response and stops the pipeline, or it attaches the decoded payload to
`req.decoded` and calls `next()`.  `P` is the type of decoded payloads;
the middleware never inspects or rewrites the payload, so it is kept
abstract. -/
inductive JwtResult (P : Type) where
  | reject (r : Resp)
  | accept (decoded : P)
  deriving Repr, DecidableEq

/-- JavaScript `s.split(" ")` on a list of characters: splits at every
single space character, keeping empty segments, and yields `[[]]` on the
empty string (as JS does). -/
def splitOnSpace : List Char → List (List Char)
  | [] => [[]]
  | c :: cs =>
    if c = ' ' then [] :: splitOnSpace cs
    else
      match splitOnSpace cs with
      | [] => [[c]]
      | g :: gs => (c :: g) :: gs

/-- JavaScript `authorization.split(" ")[1]`: the second space-delimited
segment of the header, or `none` (JS `undefined`) when there is no second
segment. -/
def headerToken (authorization : String) : Option String :=
  ((splitOnSpace authorization.data).map String.mk).get? 1

/-- JavaScript truthiness of a possibly-absent string: `undefined` and the
empty string are falsy. -/
def falsyStr : Option String → Bool
  | none => true
  | some s => s = ""

/-- Response sent by `verifyJWT` when the `Authorization` header is absent
(src/index.js line 29). -/
def unauthorizedResp : Resp :=
  { status := 401, error := true, message := "Unauthorized Access Request" }

/-- Response sent by `verifyJWT` when `jwt.verify` reports an error
(src/index.js line 37). -/
def tokenProblemResp : Resp :=
  { status := 401, error := true,
    message := "Unauthorized Access. May be a problem with your token" }

/-- The Stage-1 middleware `verifyJWT` (src/index.js lines 26-47).
`verify` abstracts `jwt.verify(token, secret, cb)` restricted to actual
string tokens: `none` models the callback receiving an error (bad
signature, expired, malformed).  `jwt.verify` called on an `undefined`
token (header with no second segment) always reports an error, which is
the `none` branch of `headerToken` below, landing in the same 401
response.  The header itself is `none` when absent; the JS guard
`if (!authorization)` also fires on an empty-string header. -/
def verifyJWT {P : Type} (verify : String → Option P)
    (authorization : Option String) : JwtResult P :=
  if falsyStr authorization then .reject unauthorizedResp
  else
    match authorization with
    | none => .reject unauthorizedResp
    | some auth =>
      match headerToken auth with
      | none => .reject tokenProblemResp
      | some token =>
        match verify token with
        | none => .reject tokenProblemResp
        | some decoded => .accept decoded

/-- A document of the `users` collection: an `email` field and an optional
`role` field (`none` models a document without a `role`). -/
structure UserRecord where
  email : String
  role : Option String
  deriving Repr, DecidableEq

/-- JavaScript `userCollection.findOne` with query `email: e`: the first document of the
collection whose `email` equals `e`, in collection order. -/
def findOneByEmail (users : List UserRecord) (e : String) : Option UserRecord :=
  users.find? (fun u => u.email = e)

/-- JavaScript `userFromDb?.role`: `undefined` when the lookup found
nothing or the document has no `role` field. -/
def roleOf (userFromDb : Option UserRecord) : Option String :=
  userFromDb.bind (fun u => u.role)

/-- Outcome of the Stage-2 middleware `verifyAdmin`: either `next()` is
called and the pipeline continues, or a response is written and the route
body never runs. -/
inductive MwResult where
  | next
  | reject (r : Resp)
  deriving Repr, DecidableEq

/-- Response sent by `verifyAdmin` when the looked-up role is not exactly
"admin" (src/index.js line 61). -/
def forbiddenAdminResp : Resp :=
  { status := 403, error := true, message := "Forbidden Request. Not an admin" }

/-- Response sent by the catch-all handlers on an internal failure
(src/index.js line 68 and every route's catch block). -/
def internalErrorResp : Resp :=
  { status := 500, error := true, message := "Internal server error" }

/-- The Stage-2 middleware `verifyAdmin` (src/index.js lines 50-70),
parameterised over the two awaited operations that can throw inside its
`try` block: `acquire` is the result of `await DbConnect()` and `findOne`
is the result of `await userCollection.findOne(query)` given the users
collection carried by the acquired handle.  An `Except.error` models a
thrown exception, landing in the `catch` block (500).  Otherwise the JS
test `userFromDb?.role !== "admin"` decides between the 403 response and
`next()`. -/
def verifyAdminWith (acquire : Except String (List UserRecord))
    (findOne : List UserRecord → Except String (Option UserRecord)) : MwResult :=
  match acquire with
  | .error _ => .reject internalErrorResp
  | .ok users =>
    match findOne users with
    | .error _ => .reject internalErrorResp
    | .ok userFromDb =>
      if roleOf userFromDb ≠ some "admin" then .reject forbiddenAdminResp
      else .next

/-- The middleware `verifyAdmin` with the role lookup behaving as a plain `findOne` on
the `users` collection (the non-throwing case of the query): the email
queried is `req.decoded`'s `email` claim. -/
def verifyAdmin (acquire : Except String (List UserRecord)) (email : String) :
    MwResult :=
  verifyAdminWith acquire (fun users => .ok (findOneByEmail users email))

/-! ### Connection Cache (src/config/dbConfig.js) -/

/-- The environment configuration read by `DbConnect` on each call:
`process.env.DB_USER` and `process.env.DB_PASS` (`none` models an unset
variable). -/
structure DbEnv where
  dbUser : Option String
  dbPass : Option String
  deriving Repr, DecidableEq

/-- The JS guard `!process.env.DB_USER || !process.env.DB_PASS`
(src/config/dbConfig.js line 25): unset and empty-string values are
falsy. -/
def credsMissing (env : DbEnv) : Bool :=
  falsyStr env.dbUser || falsyStr env.dbPass

/-- Behaviour of the external MongoDB deployment during one `DbConnect`
call: whether `client.connect()` succeeds and whether the admin `ping`
command succeeds. -/
structure DbWorld where
  connectOk : Bool
  pingOk : Bool
  deriving Repr, DecidableEq

/-- A database handle (`client.db("lifeBall")`).  `id` distinguishes
handle instances (a fresh client yields a fresh handle); `pinged` is a
ghost field recording whether the admin ping of the call that created the
handle succeeded. -/
structure Handle where
  id : Nat
  pinged : Bool
  deriving Repr, DecidableEq

/-- The module-level mutable state of dbConfig.js: the cache variable
`let db = null` plus a counter supplying fresh handle identities. -/
structure CacheState where
  db : Option Handle
  nextId : Nat
  deriving Repr, DecidableEq

/-- State at module load: `let db = null`. -/
def initialCache : CacheState := { db := none, nextId := 0 }

deriving instance DecidableEq for Except

/-- Everything one `DbConnect()` call produces: the state it leaves
behind, its result (`Except.error` models a thrown exception), and
counters of the external operations it performed: MongoClient
constructions, `client.connect()` attempts and admin `ping` probes. -/
structure DbcOutcome where
  state : CacheState
  result : Except String Handle
  clients : Nat
  connects : Nat
  pings : Nat
  deriving Repr, DecidableEq

/-- One call to `DbConnect` (src/config/dbConfig.js lines 21-56).
`if (db) return db` serves a populated cache with no client construction,
no connect and no ping.  With an empty cache, missing credentials throw
before a client is constructed.  Otherwise a fresh client is constructed
and `client.connect()` runs; on success `db = client.db("lifeBall")` is
assigned and the admin ping runs; if either awaited step throws, the
`catch` block resets `db` to `null` and re-throws.  The stored handle's
ghost `pinged` field records the ping result of this call. -/
def DbConnect (env : DbEnv) (w : DbWorld) (s : CacheState) : DbcOutcome :=
  match s.db with
  | some h => { state := s, result := .ok h, clients := 0, connects := 0, pings := 0 }
  | none =>
    if credsMissing env then
      { state := s,
        result := .error "Missing MongoDB credentials: DB_USER and DB_PASS must be set in environment variables",
        clients := 0, connects := 0, pings := 0 }
    else if w.connectOk then
      if w.pingOk then
        { state := { db := some { id := s.nextId, pinged := w.pingOk },
                     nextId := s.nextId + 1 },
          result := .ok { id := s.nextId, pinged := w.pingOk },
          clients := 1, connects := 1, pings := 1 }
      else
        { state := { db := none, nextId := s.nextId + 1 },
          result := .error "ping failed",
          clients := 1, connects := 1, pings := 1 }
    else
      { state := { db := none, nextId := s.nextId + 1 },
        result := .error "connect failed",
        clients := 1, connects := 1, pings := 0 }

/-- Final cache state after a sequence of `DbConnect()` calls, each
supplied with its own environment reading and external-world
behaviour. -/
def runCalls (calls : List (DbEnv × DbWorld)) (s : CacheState) : CacheState :=
  calls.foldl (fun st c => (DbConnect c.1 c.2 st).state) s

/-- The outcome of every call in a sequence of `DbConnect()` calls, each
call starting from the state the previous one left behind. -/
def callOutcomes (calls : List (DbEnv × DbWorld)) (s : CacheState) :
    List DbcOutcome :=
  match calls with
  | [] => []
  | c :: rest =>
    let o := DbConnect c.1 c.2 s
    o :: callOutcomes rest o.state

/-! #### Event-loop interleaving of `DbConnect` calls

The atomic `DbConnect` above summarises one complete call.  dbConfig.js,
however, assigns `db = client.db("lifeBall")` (line 43) before awaiting
the admin ping (line 46), and both `client.connect()` and the ping are
suspension points of the cooperatively-scheduled event loop, so other
calls can run between a call's synchronous segments.  The small-step
model below keeps the source's statement order and makes those
suspension points explicit. -/

/-- Program counter of one in-flight `DbConnect()` call that has passed
the synchronous prologue: suspended at `await client.connect()`
(src/config/dbConfig.js line 42); suspended at the admin ping (line 46),
by which point `db = client.db("lifeBall")` (line 43) has already been
assigned; or returned with its result.  Handles are identified by their
client's id. -/
inductive CallPhase where
  | awaitConnect (clientId : Nat)
  | awaitPing (clientId : Nat)
  | returned (r : Except String Nat)
  deriving Repr, DecidableEq

/-- State of the event loop running dbConfig.js: the module-level cache
variable `db` (holding a client id), the fresh-client counter, the
in-flight or finished calls in invocation order, and a ghost counter of
admin pings that have succeeded so far in the whole execution. -/
structure LoopState where
  db : Option Nat
  nextId : Nat
  calls : List CallPhase
  pingsSucceeded : Nat
  deriving Repr, DecidableEq

/-- Event-loop state at module load: `let db = null`, no calls yet. -/
def initialLoop : LoopState :=
  { db := none, nextId := 0, calls := [], pingsSucceeded := 0 }

/-- One event of the cooperatively-scheduled loop: a new `DbConnect()`
invocation runs its synchronous segment up to the first await, or the
pending await of call `i` settles (`ok` tells whether the awaited
operation succeeded) and the call runs its next synchronous segment. -/
inductive LoopEvent where
  | invoke
  | resume (i : Nat) (ok : Bool)
  deriving Repr, DecidableEq

/-- Small-step semantics of dbConfig.js lines 21-56 under the event loop,
keeping the source's statement order.  An invocation returns the cached
handle synchronously when `db` is set (`if (db) return db`), throws
synchronously on missing credentials, and otherwise constructs a client
and suspends at `await client.connect()`.  When the connect settles
successfully, the call assigns `db = client.db("lifeBall")` and only then
suspends at the admin ping; when the ping settles successfully, the call
returns the handle.  When either await fails, the `catch` block sets
`db = null` and the call returns the error.  A `resume` of a call that is
not suspended is a no-op. -/
def loopStep (env : DbEnv) (s : LoopState) : LoopEvent → LoopState
  | .invoke =>
    match s.db with
    | some h => { s with calls := s.calls ++ [.returned (.ok h)] }
    | none =>
      if credsMissing env then
        { s with calls := s.calls ++
            [.returned (.error "Missing MongoDB credentials: DB_USER and DB_PASS must be set in environment variables")] }
      else
        { s with nextId := s.nextId + 1,
                 calls := s.calls ++ [.awaitConnect s.nextId] }
  | .resume i ok =>
    match s.calls.get? i with
    | some (.awaitConnect c) =>
      if ok then
        { s with db := some c, calls := s.calls.set i (.awaitPing c) }
      else
        { s with db := none,
                 calls := s.calls.set i (.returned (.error "connect failed")) }
    | some (.awaitPing c) =>
      if ok then
        { s with pingsSucceeded := s.pingsSucceeded + 1,
                 calls := s.calls.set i (.returned (.ok c)) }
      else
        { s with db := none,
                 calls := s.calls.set i (.returned (.error "ping failed")) }
    | _ => s

/-- Final loop state after a sequence of events. -/
def runLoop (env : DbEnv) (events : List LoopEvent) (s : LoopState) : LoopState :=
  events.foldl (loopStep env) s

/-! ### Route handlers touched by the claims (src/index.js) -/

/-- A document of the `cart` collection: its `_id` and the `userEmail`
field it is keyed by. -/
structure CartItem where
  id : String
  userEmail : String
  deriving Repr, DecidableEq

/-- JavaScript `cartCollection.deleteOne` with an `_id` query `q`: removes the first document whose
`_id` matches, if any. -/
def deleteOneById (cart : List CartItem) (q : String) : List CartItem :=
  match cart with
  | [] => []
  | item :: rest =>
    if item.id = q then rest else item :: deleteOneById rest q

/-- Response of the `DELETE /delete-cart-item/:id` handler: either the 403
rejection or the result of `deleteOne` (its `deletedCount`). -/
inductive DeleteCartResponse where
  | errorResp (r : Resp)
  | deleteResult (deletedCount : Nat)
  deriving Repr, DecidableEq

/-- The `DELETE /delete-cart-item/:id` handler body after Stage 1
(src/index.js lines 257-275): `req.query.userEmail` may be absent
(`none`); the guard `req.decoded.email !== userEmail` returns the 403
response before any database access; otherwise `deleteOne` runs on the
cart collection and its result is sent.  Returns the response and the
cart collection after the call. -/
def deleteCartItem (decodedEmail : String) (queryUserEmail : Option String)
    (id : String) (cart : List CartItem) : DeleteCartResponse × List CartItem :=
  if some decodedEmail ≠ queryUserEmail then
    (.errorResp { status := 403, error := true, message := "Forbidden Request" }, cart)
  else
    let remaining := deleteOneById cart id
    (.deleteResult (cart.length - remaining.length), remaining)

/-- Response of the `POST /add-user` handler: either the duplicate-email
message or the `insertOne` acknowledgement for the inserted document. -/
inductive AddUserResponse where
  | message (text : String)
  | insertedResult (u : UserRecord)
  deriving Repr, DecidableEq

/-- The `POST /add-user` handler body (src/index.js lines 202-219):
`findOne({email: newUser.email})`; if a document exists, send the message
"User Already Exist" and return without inserting; otherwise
`insertOne(newUser)` appends the document.  Returns the response and the
users collection after the call. -/
def addUser (newUser : UserRecord) (users : List UserRecord) :
    AddUserResponse × List UserRecord :=
  match findOneByEmail users newUser.email with
  | some _ => (.message "User Already Exist", users)
  | none => (.insertedResult newUser, users ++ [newUser])

/-! ### Lemmas about the JS space split -/

theorem splitOnSpace_no_space (s : List Char) (hs : ' ' ∉ s) :
    splitOnSpace s = [s] := by
  induction s with
  | nil => rfl
  | cons c cs ih =>
    have hc : ¬ c = ' ' := fun h => hs (h ▸ List.mem_cons_self c cs)
    have hcs : ' ' ∉ cs := fun h => hs (List.mem_cons_of_mem c h)
    simp [splitOnSpace, hc, ih hcs]

theorem splitOnSpace_append_space (s t : List Char) (hs : ' ' ∉ s) :
    splitOnSpace (s ++ ' ' :: t) = s :: splitOnSpace t := by
  induction s with
  | nil => simp [splitOnSpace]
  | cons c cs ih =>
    have hc : ¬ c = ' ' := fun h => hs (h ▸ List.mem_cons_self c cs)
    have hcs : ' ' ∉ cs := fun h => hs (List.mem_cons_of_mem c h)
    simp [splitOnSpace, hc, ih hcs]

theorem headerToken_append_space (s t : List Char) (hs : ' ' ∉ s) :
    headerToken (String.mk (s ++ ' ' :: t))
      = ((splitOnSpace t).map String.mk).head? := by
  show ((splitOnSpace (s ++ ' ' :: t)).map String.mk).get? 1
      = ((splitOnSpace t).map String.mk).head?
  rw [splitOnSpace_append_space s t hs]
  cases splitOnSpace t <;> simp

theorem mk_append_space_ne_empty (s t : List Char) :
    (String.mk (s ++ ' ' :: t) = "") = False := by
  simp only [eq_iff_iff, iff_false]
  intro h
  have hd : s ++ ' ' :: t = [] := congrArg String.data h
  exact (List.append_ne_nil_of_right_ne_nil s (List.cons_ne_nil _ _)) hd

/-! ### Claim theorems: Stage 1 (`verifyJWT`) -/

/-- C2: a Stage-1-gated request with an absent `Authorization` header is
rejected with 401 and the absent-header message; a present header whose
extracted token fails verification is rejected with 401 and the distinct
token-problem message; a verified token attaches the decoded payload
unmodified and continues the pipeline.  The two 401 messages differ. -/
theorem verifyJWT_stage1_gate {P : Type} (verify : String → Option P) :
    (verifyJWT verify none = .reject unauthorizedResp)
    ∧ (∀ auth token, auth ≠ "" → headerToken auth = some token →
        verify token = none →
        verifyJWT verify (some auth) = .reject tokenProblemResp)
    ∧ (∀ auth token p, auth ≠ "" → headerToken auth = some token →
        verify token = some p →
        verifyJWT verify (some auth) = .accept p)
    ∧ unauthorizedResp.status = 401 ∧ tokenProblemResp.status = 401
    ∧ unauthorizedResp.message ≠ tokenProblemResp.message := by
  refine ⟨rfl, ?_, ?_, rfl, rfl, by decide⟩
  · intro auth token hne htok hv
    simp [verifyJWT, falsyStr, hne, htok, hv]
  · intro auth token p hne htok hv
    simp [verifyJWT, falsyStr, hne, htok, hv]

/-- Witness for C2 at concrete inputs: an absent header, a present header
with a token the verifier rejects, and a present header with a token the
verifier decodes to the payload 5. -/
theorem verifyJWT_stage1_gate_witness :
    (verifyJWT (fun t => if t = "tok" then some 5 else none) none
      = .reject unauthorizedResp)
    ∧ (verifyJWT (fun t => if t = "tok" then some 5 else none)
        (some "Bearer bad") = .reject tokenProblemResp)
    ∧ (verifyJWT (fun t => if t = "tok" then some 5 else none)
        (some "Bearer tok") = .accept 5) :=
  ⟨(verifyJWT_stage1_gate _).1,
   (verifyJWT_stage1_gate _).2.1 "Bearer bad" "bad" (by decide) (by decide)
     (by decide),
   (verifyJWT_stage1_gate _).2.2.1 "Bearer tok" "tok" 5 (by decide) (by decide)
     (by decide)⟩

/-- C9: Stage 1 never validates the authorization scheme.  For any two
space-free scheme words `s` and `t2`, headers `s <rest>` and `t2 <rest>`
extract the same token — the second space-delimited segment — and yield
the same middleware outcome for every verifier; a header with no second
segment (a space-free, non-empty value such as "Bearer") is rejected 401
through the token-problem branch rather than crashing. -/
theorem verifyJWT_ignores_scheme {P : Type} (verify : String → Option P)
    (s1 s2 t auth : List Char) (h1 : ' ' ∉ s1) (h2 : ' ' ∉ s2)
    (ha : ' ' ∉ auth) (hne : auth ≠ []) :
    (headerToken (String.mk (s1 ++ ' ' :: t))
      = headerToken (String.mk (s2 ++ ' ' :: t)))
    ∧ (verifyJWT verify (some (String.mk (s1 ++ ' ' :: t)))
      = verifyJWT verify (some (String.mk (s2 ++ ' ' :: t))))
    ∧ (verifyJWT verify (some (String.mk auth)) = .reject tokenProblemResp) := by
  have htok : headerToken (String.mk (s1 ++ ' ' :: t))
      = headerToken (String.mk (s2 ++ ' ' :: t)) := by
    rw [headerToken_append_space s1 t h1, headerToken_append_space s2 t h2]
  refine ⟨htok, ?_, ?_⟩
  · simp only [verifyJWT, falsyStr, mk_append_space_ne_empty, decide_False,
      Bool.false_eq_true, if_false, htok]
  · have hmke : ¬ (String.mk auth = "") := by
      intro h
      exact hne (congrArg String.data h)
    have htok2 : headerToken (String.mk auth) = none := by
      show ((splitOnSpace auth).map String.mk).get? 1 = none
      rw [splitOnSpace_no_space auth ha]
      rfl
    simp [verifyJWT, falsyStr, hmke, htok2]

/-- Witness for C9 at concrete inputs: the schemes "Basic" and "Bearer"
with the same token, and the bare header "Bearer". -/
theorem verifyJWT_ignores_scheme_witness :
    (headerToken "Basic tok" = headerToken "Bearer tok")
    ∧ (verifyJWT (fun t => if t = "tok" then some 5 else none)
        (some "Basic tok")
      = verifyJWT (fun t => if t = "tok" then some 5 else none)
        (some "Bearer tok"))
    ∧ (verifyJWT (fun t => if t = "tok" then some 5 else none)
        (some "Bearer") = .reject tokenProblemResp) :=
  verifyJWT_ignores_scheme (fun t => if t = "tok" then some 5 else none)
    "Basic".data "Bearer".data "tok".data "Bearer".data
    (by decide) (by decide) (by decide) (by decide)

/-! ### Claim theorems: Stage 2 (`verifyAdmin`) -/

/-- The data-model key constraint of the `users` collection: documents are
keyed by `email`, so no two documents share an email. -/
def EmailsUnique (users : List UserRecord) : Prop :=
  List.Pairwise (fun u v => u.email ≠ v.email) users

theorem findOneByEmail_of_mem (users : List UserRecord) (u : UserRecord)
    (e : String) (hu : EmailsUnique users) (hm : u ∈ users)
    (he : u.email = e) : findOneByEmail users e = some u := by
  induction users with
  | nil => cases hm
  | cons v rest ih =>
    rcases List.pairwise_cons.mp hu with ⟨hv, hrest⟩
    rcases List.mem_cons.mp hm with rfl | hm2
    · simp [findOneByEmail, List.find?, he]
    · have hne : ¬ (v.email = e) := fun h => hv u hm2 (h.trans he.symm)
      have := ih hrest hm2
      simp only [findOneByEmail, List.find?, decide_eq_true_eq] at this ⊢
      simp [hne, this]

/-- C1: Stage-2 gate.  With the users collection keyed by email, a gated
request whose Principal's email matches a stored record with role exactly
"admin" passes to `next()`; when no record matches or the matching record's
role is anything else, the middleware sends 403 with the body
`error: true, message: "Forbidden Request. Not an admin"` and the route
body never runs (no `next()`). -/
theorem verifyAdmin_gate (users : List UserRecord) (e : String)
    (hu : EmailsUnique users) :
    ((∃ u, u ∈ users ∧ u.email = e ∧ u.role = some "admin") →
      verifyAdmin (.ok users) e = .next)
    ∧ ((¬ ∃ u, u ∈ users ∧ u.email = e ∧ u.role = some "admin") →
      verifyAdmin (.ok users) e = .reject forbiddenAdminResp)
    ∧ forbiddenAdminResp.status = 403 := by
  refine ⟨?_, ?_, rfl⟩
  · rintro ⟨u, hm, he, hrole⟩
    have hfind := findOneByEmail_of_mem users u e hu hm he
    simp [verifyAdmin, verifyAdminWith, hfind, roleOf, hrole]
  · intro hno
    rcases hfind : findOneByEmail users e with _ | u
    · simp [verifyAdmin, verifyAdminWith, hfind, roleOf]
    · have hm : u ∈ users := List.mem_of_find?_eq_some hfind
      have he : u.email = e := by
        have := List.find?_some hfind
        exact of_decide_eq_true this
      have hrole : ¬ (u.role = some "admin") := fun h => hno ⟨u, hm, he, h⟩
      simp [verifyAdmin, verifyAdminWith, hfind, roleOf, hrole]

/-- Witness for C1 at concrete collections: a matching admin record passes,
a matching student record and an empty collection are both rejected 403. -/
theorem verifyAdmin_gate_witness :
    (verifyAdmin (.ok [⟨"a@x.com", some "admin"⟩]) "a@x.com" = .next)
    ∧ (verifyAdmin (.ok [⟨"a@x.com", some "student"⟩]) "a@x.com"
      = .reject forbiddenAdminResp)
    ∧ (verifyAdmin (.ok []) "a@x.com" = .reject forbiddenAdminResp) :=
  ⟨(verifyAdmin_gate [⟨"a@x.com", some "admin"⟩] "a@x.com"
      (by simp [EmailsUnique])).1
    ⟨⟨"a@x.com", some "admin"⟩, by simp, rfl, rfl⟩,
   (verifyAdmin_gate [⟨"a@x.com", some "student"⟩] "a@x.com"
      (by simp [EmailsUnique])).2.1 (by decide),
   (verifyAdmin_gate [] "a@x.com" (by simp [EmailsUnique])).2.1
     (by decide)⟩

/-- C7: when Stage 2's `await DbConnect()` throws, or the role lookup
itself throws, the `catch` block sends the 500 internal-error response
with a generic message — never the 403 non-admin response — and `next()`
is not called.  The 500 and 403 responses are distinct values. -/
theorem verifyAdmin_internal_error (users : List UserRecord) (msg : String)
    (findOne : List UserRecord → Except String (Option UserRecord)) :
    (verifyAdminWith (.error msg) findOne = .reject internalErrorResp)
    ∧ (∀ msg2, findOne users = .error msg2 →
        verifyAdminWith (.ok users) findOne = .reject internalErrorResp)
    ∧ internalErrorResp.status = 500
    ∧ internalErrorResp ≠ forbiddenAdminResp
    ∧ (.reject internalErrorResp : MwResult) ≠ .next := by
  refine ⟨rfl, ?_, rfl, by decide, by decide⟩
  intro msg2 hlookup
  simp [verifyAdminWith, hlookup]

/-- Witness for C7 at concrete inputs: an acquire failure and a throwing
lookup both produce the 500 response. -/
theorem verifyAdmin_internal_error_witness :
    (verifyAdminWith (.error "connect failed")
        (fun users => .ok (findOneByEmail users "a@x.com"))
      = .reject internalErrorResp)
    ∧ (verifyAdminWith (.ok [⟨"a@x.com", some "admin"⟩])
        (fun _ => .error "query failed") = .reject internalErrorResp) :=
  ⟨(verifyAdmin_internal_error [] "connect failed"
      (fun users => .ok (findOneByEmail users "a@x.com"))).1,
   (verifyAdmin_internal_error [⟨"a@x.com", some "admin"⟩] "ignored"
      (fun _ => .error "query failed")).2.1 "query failed" rfl⟩

/-! ### Claim theorems: Connection Cache (`DbConnect`) -/

/-- C3: the claimed cache invariant — whenever the cache is populated,
observable by any caller of acquire(), the stored handle has already
passed the liveness probe at the moment it was stored — is false of the
program.  dbConfig.js assigns `db = client.db("lifeBall")` (line 43)
before awaiting the admin ping (line 46), so during the ping suspension
the cache is populated by a handle that has not passed any probe, and a
concurrent caller of `DbConnect()` synchronously receives it via
`if (db) return db`.  In the concrete interleaving below, call 0 connects
and suspends at its ping; call 1, invoked during that suspension, returns
handle 0 while the cache is populated and zero pings have ever succeeded;
call 0's ping then fails, so handle 0 never passes a probe at any time,
yet a caller of the cache observed the populated state and obtained
the handle. -/
theorem DbConnect_unpinged_handle_observable :
    ((runLoop ⟨some "u", some "p"⟩ [.invoke, .resume 0 true, .invoke]
        initialLoop).calls.get? 1 = some (.returned (.ok 0)))
    ∧ (runLoop ⟨some "u", some "p"⟩ [.invoke, .resume 0 true, .invoke]
        initialLoop).db = some 0
    ∧ (runLoop ⟨some "u", some "p"⟩ [.invoke, .resume 0 true, .invoke]
        initialLoop).pingsSucceeded = 0
    ∧ (runLoop ⟨some "u", some "p"⟩
        [.invoke, .resume 0 true, .invoke, .resume 0 false]
        initialLoop).pingsSucceeded = 0
    ∧ (runLoop ⟨some "u", some "p"⟩
        [.invoke, .resume 0 true, .invoke, .resume 0 false]
        initialLoop).db = none
    ∧ (runLoop ⟨some "u", some "p"⟩
        [.invoke, .resume 0 true, .invoke, .resume 0 false]
        initialLoop).calls.get? 1 = some (.returned (.ok 0)) := by
  decide

theorem DbConnect_cached_hit (env : DbEnv) (w : DbWorld) (s : CacheState)
    (h : Handle) (hdb : s.db = some h) :
    DbConnect env w s
      = { state := s, result := .ok h, clients := 0, connects := 0, pings := 0 } := by
  simp [DbConnect, hdb]

theorem DbConnect_ok_state (env : DbEnv) (w : DbWorld) (s : CacheState)
    (h : Handle) (hres : (DbConnect env w s).result = .ok h) :
    (DbConnect env w s).state.db = some h := by
  rcases hdb : s.db with _ | h2
  · by_cases hc : credsMissing env = true
    · simp [DbConnect, hdb, hc] at hres
    · rcases hconn : w.connectOk with _ | _
      · simp [DbConnect, hdb, hc, hconn] at hres
      · rcases hping : w.pingOk with _ | _
        · simp [DbConnect, hdb, hc, hconn, hping] at hres
        · simp [DbConnect, hdb, hc, hconn, hping] at hres ⊢
          exact hres
  · simp [DbConnect, hdb] at hres ⊢
    exact hres

theorem callOutcomes_cached (calls : List (DbEnv × DbWorld)) (s1 : CacheState)
    (h : Handle) (hdb : s1.db = some h) :
    ∀ o ∈ callOutcomes calls s1,
      o.result = .ok h ∧ o.clients = 0 ∧ o.connects = 0 ∧ o.pings = 0
        ∧ o.state = s1 := by
  induction calls with
  | nil => intro o ho; simp [callOutcomes] at ho
  | cons c rest ih =>
    intro o ho
    have hhit := DbConnect_cached_hit c.1 c.2 s1 h hdb
    simp only [callOutcomes, List.mem_cons, hhit] at ho
    rcases ho with rfl | ho
    · exact ⟨rfl, rfl, rfl, rfl, rfl⟩
    · exact ih o ho

/-- C4: memoization.  After any call to `DbConnect()` that returns a
handle successfully, every later call of any sequence returns the
identical handle instance, constructs no client, performs no connect and
no ping, and leaves the cache state untouched. -/
theorem DbConnect_memoization (env : DbEnv) (w : DbWorld) (s : CacheState)
    (h : Handle) (calls : List (DbEnv × DbWorld))
    (hres : (DbConnect env w s).result = .ok h) :
    ∀ o ∈ callOutcomes calls (DbConnect env w s).state,
      o.result = .ok h ∧ o.clients = 0 ∧ o.connects = 0 ∧ o.pings = 0
        ∧ o.state = (DbConnect env w s).state :=
  callOutcomes_cached calls (DbConnect env w s).state h
    (DbConnect_ok_state env w s h hres)

/-- Witness for C4 on concrete inputs: after a successful first call, a
further call (with a hostile world and a changed environment) returns
handle 0 with zero clients, connects and pings. -/
theorem DbConnect_memoization_witness :
    (DbConnect ⟨none, none⟩ ⟨false, false⟩
        (DbConnect ⟨some "u", some "p"⟩ ⟨true, true⟩ initialCache).state).result
      = .ok ⟨0, true⟩
    ∧ (DbConnect ⟨none, none⟩ ⟨false, false⟩
        (DbConnect ⟨some "u", some "p"⟩ ⟨true, true⟩ initialCache).state).connects
      = 0
    ∧ (DbConnect ⟨none, none⟩ ⟨false, false⟩
        (DbConnect ⟨some "u", some "p"⟩ ⟨true, true⟩ initialCache).state).pings
      = 0 := by
  have h := DbConnect_memoization ⟨some "u", some "p"⟩ ⟨true, true⟩ initialCache
    ⟨0, true⟩ [(⟨none, none⟩, ⟨false, false⟩)] (by decide)
    (DbConnect ⟨none, none⟩ ⟨false, false⟩
      (DbConnect ⟨some "u", some "p"⟩ ⟨true, true⟩ initialCache).state)
    (by decide)
  exact ⟨h.1, h.2.2.1, h.2.2.2.1⟩

/-- C5: reset-and-surface on failure.  A call that reaches the network
(empty cache, credentials present) in which the connect or the ping
throws leaves the cache empty and surfaces the failure as a thrown error
(never a swallowed success), and the very next call with credentials
present constructs a fresh client and attempts a fresh connect instead of
returning a stale value. -/
theorem DbConnect_reset_on_failure (env : DbEnv) (w : DbWorld) (s : CacheState)
    (hempty : s.db = none) (hcreds : credsMissing env = false)
    (hfail : w.connectOk = false ∨ w.pingOk = false) :
    (∃ msg, (DbConnect env w s).result = .error msg)
    ∧ (DbConnect env w s).state.db = none
    ∧ (∀ env2 w2, credsMissing env2 = false →
        (DbConnect env2 w2 (DbConnect env w s).state).clients = 1
        ∧ (DbConnect env2 w2 (DbConnect env w s).state).connects = 1) := by
  have hc : ¬ credsMissing env = true := by simp [hcreds]
  have hout : (DbConnect env w s).state.db = none
      ∧ ∃ msg, (DbConnect env w s).result = .error msg := by
    rcases hfail with hconn | hping
    · simp [DbConnect, hempty, hc, hconn]
    · rcases hconn : w.connectOk with _ | _
      · simp [DbConnect, hempty, hc, hconn]
      · simp [DbConnect, hempty, hc, hconn, hping]
  obtain ⟨hdb1, hmsg⟩ := hout
  refine ⟨hmsg, hdb1, ?_⟩
  intro env2 w2 hcreds2
  have hc2 : ¬ credsMissing env2 = true := by simp [hcreds2]
  generalize hgen : (DbConnect env w s).state = s1 at hdb1 ⊢
  rcases hconn2 : w2.connectOk with _ | _ <;>
    rcases hping2 : w2.pingOk with _ | _ <;>
      simp [DbConnect, hdb1, hc2, hconn2, hping2]

/-- Witness for C5 on concrete inputs: a failed ping from the empty cache
throws, empties the cache, and the next call connects afresh. -/
theorem DbConnect_reset_on_failure_witness :
    (∃ msg, (DbConnect ⟨some "u", some "p"⟩ ⟨true, false⟩ initialCache).result
      = .error msg)
    ∧ (DbConnect ⟨some "u", some "p"⟩ ⟨true, false⟩ initialCache).state.db = none
    ∧ (∀ env2 w2, credsMissing env2 = false →
        (DbConnect env2 w2
          (DbConnect ⟨some "u", some "p"⟩ ⟨true, false⟩ initialCache).state).clients = 1
        ∧ (DbConnect env2 w2
          (DbConnect ⟨some "u", some "p"⟩ ⟨true, false⟩ initialCache).state).connects = 1) :=
  DbConnect_reset_on_failure ⟨some "u", some "p"⟩ ⟨true, false⟩ initialCache
    (by decide) (by decide) (Or.inr (by decide))

/-- C6 counterexample: the claim "every call to `DbConnect()` while
DB_USER or DB_PASS is unset throws and the cache remains empty" fails on
the code at a populated cache.  The state reached by one successful call
with credentials present is `db = handle 0`; a following call with both
credentials unset returns that handle successfully (no throw) and the
cache stays populated. -/
theorem DbConnect_missing_creds_counterexample :
    runCalls [(⟨some "u", some "p"⟩, ⟨true, true⟩)] initialCache
      = ⟨some ⟨0, true⟩, 1⟩
    ∧ credsMissing ⟨none, none⟩ = true
    ∧ (DbConnect ⟨none, none⟩ ⟨true, true⟩ ⟨some ⟨0, true⟩, 1⟩).result
      = .ok ⟨0, true⟩
    ∧ (DbConnect ⟨none, none⟩ ⟨true, true⟩ ⟨some ⟨0, true⟩, 1⟩).state.db
      = some ⟨0, true⟩ := by
  refine ⟨by decide, by decide, by decide, by decide⟩

/-- C6 as amended: fail-fast on missing credentials while the cache is
empty.  Such a call throws, constructs no client, performs no connect and
no ping, and leaves the cache state unchanged (still empty). -/
theorem DbConnect_missing_creds_fail_fast (env : DbEnv) (w : DbWorld)
    (s : CacheState) (hempty : s.db = none) (hcreds : credsMissing env = true) :
    (∃ msg, (DbConnect env w s).result = .error msg)
    ∧ (DbConnect env w s).state = s
    ∧ (DbConnect env w s).clients = 0
    ∧ (DbConnect env w s).connects = 0
    ∧ (DbConnect env w s).pings = 0 := by
  simp [DbConnect, hempty, hcreds]

/-- Witness for the amended C6 at concrete inputs: first call with both
credentials unset. -/
theorem DbConnect_missing_creds_fail_fast_witness :
    (∃ msg, (DbConnect ⟨none, some "p"⟩ ⟨true, true⟩ initialCache).result
      = .error msg)
    ∧ (DbConnect ⟨none, some "p"⟩ ⟨true, true⟩ initialCache).state = initialCache
    ∧ (DbConnect ⟨none, some "p"⟩ ⟨true, true⟩ initialCache).clients = 0
    ∧ (DbConnect ⟨none, some "p"⟩ ⟨true, true⟩ initialCache).connects = 0
    ∧ (DbConnect ⟨none, some "p"⟩ ⟨true, true⟩ initialCache).pings = 0 :=
  DbConnect_missing_creds_fail_fast ⟨none, some "p"⟩ ⟨true, true⟩ initialCache
    (by decide) (by decide)

/-! ### Claim theorems: route handlers -/

/-- C8: `DELETE /delete-cart-item/:id` hard-rejects an email mismatch.
When the decoded token email differs from the `userEmail` query parameter
(including the parameter being absent), the handler returns the 403
response before any database access: no `deleteOne` runs and the cart
collection is unchanged. -/
theorem deleteCartItem_email_mismatch (decodedEmail id : String)
    (queryUserEmail : Option String) (cart : List CartItem)
    (hne : some decodedEmail ≠ queryUserEmail) :
    deleteCartItem decodedEmail queryUserEmail id cart
      = (.errorResp { status := 403, error := true, message := "Forbidden Request" },
         cart) := by
  simp [deleteCartItem, hne]

/-- Witness for C8 at concrete inputs: a mismatching query email leaves a
one-item cart untouched. -/
theorem deleteCartItem_email_mismatch_witness :
    deleteCartItem "a@x.com" (some "b@x.com") "1" [⟨"1", "a@x.com"⟩]
      = (.errorResp { status := 403, error := true, message := "Forbidden Request" },
         [⟨"1", "a@x.com"⟩]) :=
  deleteCartItem_email_mismatch "a@x.com" "1" (some "b@x.com")
    [⟨"1", "a@x.com"⟩] (by decide)

/-- C10: `POST /add-user` with a duplicate email.  When the users
collection already holds a record with the new user's email, the handler
sends the message "User Already Exist" and performs no insert, leaving
the collection unchanged; consequently repeating the same add-user
request leaves the state identical to (and the second response is the
duplicate message after) the first call. -/
theorem addUser_duplicate_email (newUser : UserRecord)
    (users : List UserRecord) :
    ((∃ u, u ∈ users ∧ u.email = newUser.email) →
      addUser newUser users = (.message "User Already Exist", users))
    ∧ (addUser newUser (addUser newUser users).2).2 = (addUser newUser users).2
    ∧ (addUser newUser (addUser newUser users).2).1
      = .message "User Already Exist" := by
  refine ⟨?_, ?_⟩
  · rintro ⟨u, hm, he⟩
    have hne : ¬ findOneByEmail users newUser.email = none := by
      intro hnone
      have := List.find?_eq_none.mp hnone u hm
      simp [he] at this
    rcases hfind : findOneByEmail users newUser.email with _ | u2
    · exact absurd hfind hne
    · simp [addUser, hfind]
  · have hsecond : ∀ users2 : List UserRecord,
        findOneByEmail users2 newUser.email = some newUser ∨
          (∃ u2, findOneByEmail users2 newUser.email = some u2) →
        (addUser newUser users2).2 = users2
          ∧ (addUser newUser users2).1 = .message "User Already Exist" := by
      intro users2 hfound
      have hfound2 : ∃ u2, findOneByEmail users2 newUser.email = some u2 := by
        rcases hfound with h | h
        · exact ⟨newUser, h⟩
        · exact h
      rcases hfound2 with ⟨u2, hfind⟩
      simp [addUser, hfind]
    rcases hfind : findOneByEmail users newUser.email with _ | u
    · have hstate : (addUser newUser users).2 = users ++ [newUser] := by
        simp [addUser, hfind]
      have hfind2 : findOneByEmail (users ++ [newUser]) newUser.email
          = some newUser := by
        simp only [findOneByEmail] at hfind ⊢
        rw [List.find?_append, hfind]
        simp [List.find?]
      have := hsecond (users ++ [newUser]) (Or.inl hfind2)
      rw [hstate]
      exact this
    · have hstate : (addUser newUser users).2 = users := by
        simp [addUser, hfind]
      have := hsecond users (Or.inr ⟨u, hfind⟩)
      rw [hstate]
      exact this

/-- Witness for C10 at concrete inputs: adding an email that already
exists returns the duplicate message and leaves the collection as it
was. -/
theorem addUser_duplicate_email_witness :
    addUser ⟨"a@x.com", none⟩ [⟨"a@x.com", some "admin"⟩]
      = (.message "User Already Exist", [⟨"a@x.com", some "admin"⟩]) :=
  (addUser_duplicate_email ⟨"a@x.com", none⟩ [⟨"a@x.com", some "admin"⟩]).1
    ⟨⟨"a@x.com", some "admin"⟩, by simp, rfl⟩
